import Mathlib

/-!
Shallow embedding of the BoxoLogy container-visualization core: the
coordinate-interpretation resolver, the clamped fallback, the greedy shelf
packer and the scene placement mapper, translated from
`ThreeJsStaticOptimized.tsx`.  All numeric computation is modelled over `ℚ`
(exact arithmetic standing for the JavaScript numbers that appear in the
source); the JavaScript idiom `Number(x) || d`, which replaces a zero or
non-numeric value with the default `d`, is modelled on already-numeric
inputs as `if x = 0 then d else x`.
-/

/-- A point or vector in container-local coordinates: `x` is the length
axis, `y` the height axis, `z` the width axis. -/
structure Vec3 where
  x : ℚ
  y : ℚ
  z : ℚ
deriving DecidableEq, Repr

/-- Item dimensions `{length, width, height}` in meters, as carried by a
`PackedItemData.dimensions` record. -/
structure Dims where
  length : ℚ
  width : ℚ
  height : ℚ
deriving DecidableEq, Repr

/-- The container envelope after defaulting, in meters. -/
structure Container where
  length : ℚ
  width : ℚ
  height : ℚ
deriving DecidableEq, Repr

/-- One record of `packedItemsData`: the raw producer-supplied position
(already parsed to a numeric triple by `parsePositionRaw`) and the item
dimensions. -/
structure PackedItem where
  pos : Vec3
  dims : Dims
deriving DecidableEq, Repr

/-- `convertToMeters` from the source: `cm` divides by 100, `mm` by 1000,
`in` multiplies by 0.0254, everything else (including `m`) is identity. -/
def convertToMeters (value : ℚ) (unit : String) : ℚ :=
  if unit = "cm" then value / 100
  else if unit = "mm" then value / 1000
  else if unit = "in" then value * (127 / 5000)
  else value

/-- The defaulting of container dimensions:
`containerLength = contL > 0 ? contL : 2` and the analogous lines for
width (fallback 1.5) and height (fallback 1.5). -/
def defaultedContainer (contL contW contH : ℚ) : Container :=
  { length := if contL > 0 then contL else 2
    width := if contW > 0 then contW else 3 / 2
    height := if contH > 0 then contH else 3 / 2 }

/-- `maxDim = Math.max(containerLength, containerWidth, containerHeight)`. -/
def maxDim (c : Container) : ℚ :=
  max (max c.length c.width) c.height

/-- `sceneScale = maxDim > 0 ? targetMax / maxDim : 1` with `targetMax = 8`. -/
def sceneScale (c : Container) : ℚ :=
  if maxDim c > 0 then 8 / maxDim c else 1

/-- The containment tolerance `1e-9` used by `validateInterpretation`. -/
def tol : ℚ := 1 / 1000000000

/-- The JavaScript default `Number(x) || 0.1` applied to an item dimension
by both placement passes (validation instead uses `|| 0`, the identity on
numeric input). -/
def dimOrTenth (q : ℚ) : ℚ :=
  if q = 0 then 1 / 10 else q

/-- `dimOrTenth` applied to all three components of a dimension record. -/
def Dims.orTenth (d : Dims) : Dims :=
  { length := dimOrTenth d.length
    width := dimOrTenth d.width
    height := dimOrTenth d.height }

/-- The four candidate coordinate readings tried by the resolver, in
source order. -/
inductive Interp where
  | minCorner
  | center
  | minCornerSwapXZ
  | centerSwapXZ
deriving DecidableEq, Repr

/-- `asMinCorner` / `asCenter` / `asMinCornerSwapXZ` / `asCenterSwapXZ`
from the source: each maps a raw triple and the item dimensions to a
minimum-corner position. -/
def Interp.apply : Interp → Vec3 → Dims → Vec3
  | .minCorner, raw, _ => raw
  | .center, raw, d =>
      { x := raw.x - d.length / 2, y := raw.y - d.height / 2, z := raw.z - d.width / 2 }
  | .minCornerSwapXZ, raw, _ => { x := raw.z, y := raw.y, z := raw.x }
  | .centerSwapXZ, raw, d =>
      { x := raw.z - d.length / 2, y := raw.y - d.height / 2, z := raw.x - d.width / 2 }

/-- The `interpretations` array: the fixed candidate order. -/
def interpretations : List Interp :=
  [.minCorner, .center, .minCornerSwapXZ, .centerSwapXZ]

/-- The overflow test inside `validateInterpretation` for a single item:
the item's box under the candidate reading exits
`[0, length] × [0, height] × [0, width]` beyond tolerance `1e-9`.
Validation reads the dimensions with the `|| 0` default, i.e. unchanged. -/
def itemOverflows (c : Container) (i : Interp) (it : PackedItem) : Bool :=
  let d := it.dims
  let p := i.apply it.pos d
  decide (p.x < -tol) || decide (p.y < -tol) || decide (p.z < -tol) ||
  decide (p.x + d.length > c.length + tol) ||
  decide (p.y + d.height > c.height + tol) ||
  decide (p.z + d.width > c.width + tol)

/-- `validateInterpretation`'s `overflowCount`: how many items overflow
under candidate `i`. -/
def overflowCount (c : Container) (i : Interp) (items : List PackedItem) : ℕ :=
  (items.filter (itemOverflows c i)).length

/-- `okInterpretation = results.find((r) => r.ok)`: the first candidate, in
source order, with zero overflowing items. -/
def okInterpretation (c : Container) (items : List PackedItem) : Option Interp :=
  interpretations.find? (fun i => overflowCount c i items == 0)

/-- A `ResolvedPlacement`: the minimum-corner position actually used for
the box and the (defaulted) dimensions the placement code used. -/
structure ResolvedPlacement where
  minCorner : Vec3
  dims : Dims
deriving DecidableEq, Repr

/-- Placement of one item on the validated path: dimensions defaulted by
`|| 0.1`, minimum corner given by the selected candidate. -/
def placeValidated (i : Interp) (it : PackedItem) : ResolvedPlacement :=
  let d := it.dims.orTenth
  { minCorner := i.apply it.pos d, dims := d }

/-- One axis of the fallback clamp: `p = Math.max(0, p)` followed by
`if (p + itemDim > containerDim) p = Math.max(0, containerDim - itemDim)`. -/
def clampAxis (dim itemDim raw : ℚ) : ℚ :=
  let p := max 0 raw
  if p + itemDim > dim then max 0 (dim - itemDim) else p

/-- Placement of one item on the clamped fallback path: min-corner reading,
each axis clamped with `Math.max(0, ·)` and then pulled back to
`containerDim - itemDim` (again floored at 0) if the box would overflow. -/
def placeClamped (c : Container) (it : PackedItem) : ResolvedPlacement :=
  let d := it.dims.orTenth
  { minCorner :=
      { x := clampAxis c.length d.length it.pos.x
        y := clampAxis c.height d.height it.pos.y
        z := clampAxis c.width d.width it.pos.z }
    dims := d }

/-- The output of one resolution pass: the per-item placements, whether the
clamped fallback was taken, and the per-candidate overflow counts that the
fallback branch reports as a diagnostic. -/
structure Resolved where
  placements : List ResolvedPlacement
  usedFallback : Bool
  overflowCounts : List ℕ
deriving DecidableEq, Repr

/-- The resolution pass over a non-empty `packedItemsData`: try the four
candidates in order; on the first fully-validating one place every item
under it; otherwise fall back to the clamped min-corner reading. -/
def resolve (c : Container) (items : List PackedItem) : Resolved :=
  let counts := interpretations.map (fun i => overflowCount c i items)
  match okInterpretation c items with
  | some i =>
      { placements := items.map (placeValidated i)
        usedFallback := false
        overflowCounts := counts }
  | none =>
      { placements := items.map (placeClamped c)
        usedFallback := true
        overflowCounts := counts }

/-- The scene placement mapper: `centerX = (px + l/2 - containerLength/2) * sceneScale`,
`centerY = (py + h/2) * sceneScale` (no centering on height),
`centerZ = (pz + w/2 - containerWidth/2) * sceneScale`. -/
def sceneCenter (c : Container) (s : ℚ) (p : ResolvedPlacement) : Vec3 :=
  { x := (p.minCorner.x + p.dims.length / 2 - c.length / 2) * s
    y := (p.minCorner.y + p.dims.height / 2) * s
    z := (p.minCorner.z + p.dims.width / 2 - c.width / 2) * s }

/-- The scene positions produced by the resolver pipeline. -/
def resolvedScenePositions (c : Container) (items : List PackedItem) : List Vec3 :=
  (resolve c items).placements.map (sceneCenter c (sceneScale c))

/-- The shipped component version of `createBoxesGroup`: no interpretation
search, the raw triple is read as the minimum corner and unconditionally
clamped per axis with `Math.max(0, Math.min(p, containerDim - itemDim))`. -/
def shippedMinCorner (c : Container) (it : PackedItem) : ResolvedPlacement :=
  let d := it.dims.orTenth
  { minCorner :=
      { x := max 0 (min it.pos.x (c.length - d.length))
        y := max 0 (min it.pos.y (c.height - d.height))
        z := max 0 (min it.pos.z (c.width - d.width)) }
    dims := d }

/-- The scene positions produced by the shipped (clamp-only) component. -/
def shippedScenePositions (c : Container) (items : List PackedItem) : List Vec3 :=
  (items.map (shippedMinCorner c)).map (sceneCenter c (sceneScale c))

/-- Containment of a resolved placement within the container envelope to
within tolerance `1e-9` on each bound, judged on the dimensions the
placement actually used. -/
def placementContained (c : Container) (p : ResolvedPlacement) : Prop :=
  -tol ≤ p.minCorner.x ∧ -tol ≤ p.minCorner.y ∧ -tol ≤ p.minCorner.z ∧
  p.minCorner.x + p.dims.length ≤ c.length + tol ∧
  p.minCorner.y + p.dims.height ≤ c.height + tol ∧
  p.minCorner.z + p.dims.width ≤ c.width + tol

instance (c : Container) (p : ResolvedPlacement) : Decidable (placementContained c p) := by
  unfold placementContained
  infer_instance

/-- One `boxDimensions` record (an `ItemSpec`): per-unit dimensions in the
record's own unit, a quantity, and the rotation flag (accepted but never
consulted by placement). -/
structure ItemSpec where
  length : ℚ
  width : ℚ
  height : ℚ
  weight : ℚ
  quantity : ℚ
  unit : String
  rotation : Bool
deriving DecidableEq, Repr

/-- `qty = Math.max(1, Math.floor(Number(b.quantity) || 1))`. -/
def ItemSpec.qty (b : ItemSpec) : ℕ :=
  (max 1 ⌊if b.quantity = 0 then (1 : ℚ) else b.quantity⌋).toNat

/-- The canonical-unit dimensions of one instance of an `ItemSpec`:
`convertToMeters(Number(b.length) || 0.1, b.unit)` and the analogous width
and height lines. -/
def ItemSpec.instanceDims (b : ItemSpec) : Dims :=
  { length := convertToMeters (dimOrTenth b.length) b.unit
    width := convertToMeters (dimOrTenth b.width) b.unit
    height := convertToMeters (dimOrTenth b.height) b.unit }

/-- The `instances` array: each `ItemSpec` expanded into `qty` copies of
its instance dimensions, preserving input order. -/
def expandInstances (boxes : List ItemSpec) : List Dims :=
  boxes.flatMap (fun b => List.replicate b.qty b.instanceDims)

/-- The gap `const padding = 0.01` left between placed boxes. -/
def padding : ℚ := 1 / 100

/-- The greedy shelf-packing loop over expanded instances, carrying
`(cursorX, cursorZ, layerHeight)`.  For each instance: wrap to a new row
when `cursorX + l` would exceed the container length (advancing `cursorZ`
by `layerHeight + padding`); stop — dropping every remaining instance —
when `cursorZ + w` then exceeds the container width; otherwise place the
min-corner at `(cursorX, 0, cursorZ)`, advance `cursorX` by `l + padding`
and fold the width into `layerHeight`. -/
def shelfPack (L W : ℚ) : List Dims → ℚ → ℚ → ℚ → List (Vec3 × Dims)
  | [], _, _, _ => []
  | it :: rest, cx, cz, lh =>
      let cx1 := if cx + it.length > L then 0 else cx
      let cz1 := if cx + it.length > L then cz + lh + padding else cz
      let lh1 := if cx + it.length > L then 0 else lh
      if cz1 + it.width > W then []
      else (⟨cx1, 0, cz1⟩, it) :: shelfPack L W rest (cx1 + it.length + padding) cz1 (max lh1 it.width)

/-- The fallback path taken when no `packedItemsData` is present: expand
the `ItemSpec` list and run the shelf packer from the zero cursor state. -/
def fallbackPack (c : Container) (boxes : List ItemSpec) : List (Vec3 × Dims) :=
  shelfPack c.length c.width (expandInstances boxes) 0 0 0

/-- C7: for every numeric value and unit tag, the unit normalizer divides
by 100 for `cm`, by 1000 for `mm`, multiplies by 0.0254 for `in`, and is
the identity for `m` and for every other (or missing) unit string; being a
total Lean function it never fails. -/
theorem convertToMeters_spec (v : ℚ) (u : String) :
    convertToMeters v "cm" = v / 100 ∧
    convertToMeters v "mm" = v / 1000 ∧
    convertToMeters v "in" = v * (127 / 5000) ∧
    convertToMeters v "m" = v ∧
    (u ≠ "cm" → u ≠ "mm" → u ≠ "in" → convertToMeters v u = v) := by
  refine ⟨by simp [convertToMeters], by simp [convertToMeters],
    by simp [convertToMeters], by simp [convertToMeters], ?_⟩
  intro h1 h2 h3
  simp [convertToMeters, h1, h2, h3]

theorem convertToMeters_spec_witness : convertToMeters 7 "ft" = 7 :=
  (convertToMeters_spec 7 "ft").2.2.2.2 (by decide) (by decide) (by decide)

/-- C6 counterexample: there is no positive epsilon below which a container
dimension is replaced by the fallback constant — the code keeps every
strictly positive dimension, however small. -/
theorem defaultedContainer_no_epsilon :
    ¬ ∃ ε : ℚ, 0 < ε ∧ ∀ v : ℚ, v < ε →
      (defaultedContainer v 1 1).length = 2 := by
  rintro ⟨ε, hε, hrepl⟩
  have hv0 : 0 < min (ε / 2) 1 := lt_min (by positivity) one_pos
  have hvε : min (ε / 2) 1 < ε := lt_of_le_of_lt (min_le_left _ _) (by linarith)
  have h2 := hrepl (min (ε / 2) 1) hvε
  rw [defaultedContainer] at h2
  simp only [if_pos hv0] at h2
  have : min (ε / 2) 1 ≤ 1 := min_le_right _ _
  rw [h2] at this
  norm_num at this

/-- C6 (amended): a container dimension is replaced by the fixed fallback
constant (length 2, width 1.5, height 1.5) exactly when it is zero or
negative (non-numeric input having been coerced to 0 upstream); the
defaulted dimensions are positive, so `maxDim` is positive and the scale
computation `targetMax / maxDim` never divides by zero. -/
theorem defaultedContainer_spec (l w h : ℚ) :
    (l ≤ 0 → (defaultedContainer l w h).length = 2) ∧
    (0 < l → (defaultedContainer l w h).length = l) ∧
    (w ≤ 0 → (defaultedContainer l w h).width = 3 / 2) ∧
    (0 < w → (defaultedContainer l w h).width = w) ∧
    (h ≤ 0 → (defaultedContainer l w h).height = 3 / 2) ∧
    (0 < h → (defaultedContainer l w h).height = h) ∧
    0 < maxDim (defaultedContainer l w h) ∧
    sceneScale (defaultedContainer l w h) =
      8 / maxDim (defaultedContainer l w h) := by
  have hL : 0 < (defaultedContainer l w h).length := by
    show (0 : ℚ) < if l > 0 then l else 2
    split
    next hp => exact hp
    next => norm_num
  have hmax : 0 < maxDim (defaultedContainer l w h) :=
    lt_of_lt_of_le hL (le_trans (le_max_left _ _) (le_max_left _ _))
  refine ⟨fun h0 => ?_, fun h0 => ?_, fun h0 => ?_, fun h0 => ?_,
    fun h0 => ?_, fun h0 => ?_, hmax, ?_⟩
  · rw [defaultedContainer]; simp [not_lt.mpr h0]
  · rw [defaultedContainer]; simp [h0]
  · rw [defaultedContainer]; simp [not_lt.mpr h0]
  · rw [defaultedContainer]; simp [h0]
  · rw [defaultedContainer]; simp [not_lt.mpr h0]
  · rw [defaultedContainer]; simp [h0]
  · rw [sceneScale, if_pos hmax]

theorem defaultedContainer_spec_witness :
    (defaultedContainer 0 (-1) 5).length = 2 ∧
    (defaultedContainer 0 (-1) 5).width = 3 / 2 ∧
    (defaultedContainer 0 (-1) 5).height = 5 :=
  ⟨(defaultedContainer_spec 0 (-1) 5).1 (by norm_num),
   (defaultedContainer_spec 0 (-1) 5).2.2.1 (by norm_num),
   (defaultedContainer_spec 0 (-1) 5).2.2.2.2.2.1 (by norm_num)⟩

/-- C8: the resolution pass is a pure function of its inputs — two runs on
equal `(Container, PackedItem list)` inputs produce identical resolved
outputs and select the same interpretation. -/
theorem resolve_deterministic (c1 c2 : Container)
    (items1 items2 : List PackedItem) (hc : c1 = c2) (hi : items1 = items2) :
    resolve c1 items1 = resolve c2 items2 ∧
    okInterpretation c1 items1 = okInterpretation c2 items2 := by
  subst hc; subst hi; exact ⟨rfl, rfl⟩

theorem resolve_deterministic_witness :
    resolve ⟨2, 2, 2⟩ [⟨⟨0, 0, 0⟩, ⟨1, 1, 1⟩⟩] =
      resolve ⟨2, 2, 2⟩ [⟨⟨0, 0, 0⟩, ⟨1, 1, 1⟩⟩] :=
  (resolve_deterministic ⟨2, 2, 2⟩ ⟨2, 2, 2⟩ [⟨⟨0, 0, 0⟩, ⟨1, 1, 1⟩⟩]
    [⟨⟨0, 0, 0⟩, ⟨1, 1, 1⟩⟩] rfl rfl).1

/-- C1: for a non-empty packed-item list the four candidates are evaluated
in the fixed source order (min-corner, center, min-corner swapped,
center swapped) and the first candidate with zero overflowing items is
selected; in particular, when candidate 1 and candidate 3 both validate
cleanly, candidate 1 is the one selected. -/
theorem okInterpretation_order (c : Container) (items : List PackedItem)
    (_hne : items ≠ []) :
    (overflowCount c .minCorner items = 0 →
      okInterpretation c items = some .minCorner) ∧
    (overflowCount c .minCorner items ≠ 0 → overflowCount c .center items = 0 →
      okInterpretation c items = some .center) ∧
    (overflowCount c .minCorner items ≠ 0 → overflowCount c .center items ≠ 0 →
      overflowCount c .minCornerSwapXZ items = 0 →
      okInterpretation c items = some .minCornerSwapXZ) ∧
    (overflowCount c .minCorner items ≠ 0 → overflowCount c .center items ≠ 0 →
      overflowCount c .minCornerSwapXZ items ≠ 0 →
      overflowCount c .centerSwapXZ items = 0 →
      okInterpretation c items = some .centerSwapXZ) ∧
    (overflowCount c .minCorner items = 0 →
      overflowCount c .minCornerSwapXZ items = 0 →
      okInterpretation c items = some .minCorner) := by
  have bof : ∀ i : Interp, overflowCount c i items ≠ 0 →
      (overflowCount c i items == 0) = false :=
    fun i hi => beq_eq_false_iff_ne.mpr hi
  refine ⟨fun h1 => ?_, fun h1 h2 => ?_, fun h1 h2 h3 => ?_, fun h1 h2 h3 h4 => ?_,
    fun h1 _ => ?_⟩
  · simp [okInterpretation, interpretations, List.find?, h1]
  · simp [okInterpretation, interpretations, List.find?, bof _ h1, h2]
  · simp [okInterpretation, interpretations, List.find?, bof _ h1, bof _ h2, h3]
  · simp [okInterpretation, interpretations, List.find?, bof _ h1, bof _ h2, bof _ h3, h4]
  · simp [okInterpretation, interpretations, List.find?, h1]

theorem okInterpretation_order_witness :
    okInterpretation ⟨2, 2, 2⟩ [⟨⟨0, 0, 0⟩, ⟨1, 1, 1⟩⟩] = some .minCorner :=
  (okInterpretation_order ⟨2, 2, 2⟩ [⟨⟨0, 0, 0⟩, ⟨1, 1, 1⟩⟩] (by simp)).2.2.2.2
    (by norm_num [overflowCount, itemOverflows, Interp.apply, tol, List.filter])
    (by norm_num [overflowCount, itemOverflows, Interp.apply, tol, List.filter])

/-- C5: the scene placement mapper multiplies `minCorner + halfExtent`
minus half the container extent by `sceneScale` on the length and width
axes, and applies no centering subtraction on the height axis; Scenario A:
a 2x2x2 m container with one 1x1x1 m item at raw position (0,0,0) selects
candidate 1, resolves the min-corner to (0,0,0), has scene scale 4 and
scene center (-2, 2, -2). -/
theorem sceneMapper_spec (c : Container) (s : ℚ) :
    (∀ p : ResolvedPlacement, sceneCenter c s p =
      ⟨(p.minCorner.x + p.dims.length / 2 - c.length / 2) * s,
       (p.minCorner.y + p.dims.height / 2) * s,
       (p.minCorner.z + p.dims.width / 2 - c.width / 2) * s⟩) ∧
    okInterpretation (defaultedContainer 2 2 2) [⟨⟨0, 0, 0⟩, ⟨1, 1, 1⟩⟩] =
      some .minCorner ∧
    (resolve (defaultedContainer 2 2 2) [⟨⟨0, 0, 0⟩, ⟨1, 1, 1⟩⟩]).usedFallback =
      false ∧
    (resolve (defaultedContainer 2 2 2) [⟨⟨0, 0, 0⟩, ⟨1, 1, 1⟩⟩]).placements =
      [⟨⟨0, 0, 0⟩, ⟨1, 1, 1⟩⟩] ∧
    sceneScale (defaultedContainer 2 2 2) = 4 ∧
    resolvedScenePositions (defaultedContainer 2 2 2) [⟨⟨0, 0, 0⟩, ⟨1, 1, 1⟩⟩] =
      [⟨-2, 2, -2⟩] := by
  refine ⟨fun p => rfl, ?_, ?_, ?_, ?_, ?_⟩ <;>
    norm_num [resolvedScenePositions, resolve, okInterpretation, interpretations,
      List.find?, overflowCount, itemOverflows, Interp.apply, tol,
      defaultedContainer, List.filter, placeValidated, Dims.orTenth, dimOrTenth,
      sceneCenter, sceneScale, maxDim]

/-- C2 counterexample: a 2x2x2 container with a single item of recorded
dimensions 0x0x0 at raw position (2,2,2) validates under candidate 1
(validation reads the zero dimensions unchanged), so `usedFallback` is
false — yet the box actually placed uses the `|| 0.1` defaulted
dimensions, and its bounding box exits the container beyond the 1e-9
tolerance. -/
theorem resolve_containment_counterexample :
    (resolve ⟨2, 2, 2⟩ [⟨⟨2, 2, 2⟩, ⟨0, 0, 0⟩⟩]).usedFallback = false ∧
    (resolve ⟨2, 2, 2⟩ [⟨⟨2, 2, 2⟩, ⟨0, 0, 0⟩⟩]).placements =
      [⟨⟨2, 2, 2⟩, ⟨1 / 10, 1 / 10, 1 / 10⟩⟩] ∧
    ¬ placementContained ⟨2, 2, 2⟩ ⟨⟨2, 2, 2⟩, ⟨1 / 10, 1 / 10, 1 / 10⟩⟩ := by
  refine ⟨?_, ?_, ?_⟩ <;>
    norm_num [resolve, okInterpretation, interpretations, List.find?,
      overflowCount, itemOverflows, Interp.apply, tol, List.filter,
      placeValidated, Dims.orTenth, dimOrTenth, placementContained]

/-- C2 (amended): for every packed-item list in which every item's three
recorded dimensions are nonzero — so that validation (`|| 0`) and
placement (`|| 0.1`) read the same dimensions — whenever a validated
interpretation is found (`usedFallback = false`), every placed box lies
within the container envelope to within tolerance 1e-9 on each bound. -/
theorem resolve_containment (c : Container) (items : List PackedItem)
    (hd : ∀ it ∈ items,
      it.dims.length ≠ 0 ∧ it.dims.width ≠ 0 ∧ it.dims.height ≠ 0)
    (hf : (resolve c items).usedFallback = false) :
    ∀ p ∈ (resolve c items).placements, placementContained c p := by
  intro p hp
  rcases hok : okInterpretation c items with _ | i
  · simp only [resolve, hok] at hf
    simp at hf
  · simp only [resolve, hok] at hp
    rcases List.mem_map.mp hp with ⟨it, hit, rfl⟩
    have hpred : overflowCount c i items = 0 := by
      rw [okInterpretation] at hok
      have := List.find?_some hok
      simpa using this
    have hnof : itemOverflows c i it = false := by
      have hfil : items.filter (itemOverflows c i) = [] :=
        List.length_eq_zero.mp hpred
      have := (List.filter_eq_nil_iff.mp hfil) it hit
      simpa using this
    have hdd : it.dims.orTenth = it.dims := by
      obtain ⟨h1, h2, h3⟩ := hd it hit
      simp [Dims.orTenth, dimOrTenth, h1, h2, h3]
    simp only [itemOverflows, Bool.or_eq_false_iff, decide_eq_false_iff_not,
      not_lt] at hnof
    obtain ⟨⟨⟨⟨⟨hx, hy⟩, hz⟩, hX⟩, hY⟩, hZ⟩ := hnof
    refine ⟨?_, ?_, ?_, ?_, ?_, ?_⟩ <;>
      simp only [placeValidated, hdd] <;> assumption

theorem resolve_containment_witness :
    placementContained ⟨2, 2, 2⟩ ⟨⟨0, 0, 0⟩, ⟨1, 1, 1⟩⟩ :=
  resolve_containment ⟨2, 2, 2⟩ [⟨⟨0, 0, 0⟩, ⟨1, 1, 1⟩⟩]
    (by norm_num)
    (by norm_num [resolve, okInterpretation, interpretations, List.find?,
      overflowCount, itemOverflows, Interp.apply, tol, List.filter])
    ⟨⟨0, 0, 0⟩, ⟨1, 1, 1⟩⟩
    (by norm_num [resolve, okInterpretation, interpretations, List.find?,
      overflowCount, itemOverflows, Interp.apply, tol, List.filter,
      placeValidated, Dims.orTenth, dimOrTenth])

/-- Bounds of the one-axis fallback clamp: when the item fits on the axis
the result lies in `[0, containerDim - itemDim]`; when the item is larger
than the container on that axis the result is exactly 0. -/
theorem clampAxis_bounds (dim itemDim raw : ℚ) :
    (itemDim ≤ dim →
      0 ≤ clampAxis dim itemDim raw ∧ clampAxis dim itemDim raw ≤ dim - itemDim) ∧
    (dim < itemDim → clampAxis dim itemDim raw = 0) := by
  unfold clampAxis
  by_cases h : max 0 raw + itemDim > dim
  · simp only [if_pos h]
    constructor
    · intro hle
      constructor
      · exact le_max_left _ _
      · exact max_le (by linarith) (le_refl _)
    · intro hlt
      exact max_eq_left (by linarith)
  · simp only [if_neg h]
    push_neg at h
    constructor
    · intro hle
      exact ⟨le_max_left _ _, by linarith⟩
    · intro hlt
      have h0 : (0 : ℚ) ≤ max 0 raw := le_max_left _ _
      linarith

/-- C3: the clamped fallback path is taken exactly when all four candidates
have a nonzero overflow count; on that path every placement is the
candidate-1 (natural min-corner) reading of some input item with its
minimum corner clamped per axis into `[0, containerDim - itemDim]` (0 when
the item exceeds the container on that axis); the pass never fails — it
still yields one placement per item together with the per-candidate
overflow counts as a diagnostic. -/
theorem resolve_fallback_spec (c : Container) (items : List PackedItem)
    (_hne : items ≠ []) :
    ((resolve c items).usedFallback = true ↔
      ∀ i : Interp, overflowCount c i items ≠ 0) ∧
    (resolve c items).overflowCounts =
      interpretations.map (fun i => overflowCount c i items) ∧
    (resolve c items).placements.length = items.length ∧
    ((resolve c items).usedFallback = true →
      ∀ p ∈ (resolve c items).placements,
        (∃ it ∈ items, p = placeClamped c it) ∧
        ((p.dims.length ≤ c.length →
            0 ≤ p.minCorner.x ∧ p.minCorner.x ≤ c.length - p.dims.length) ∧
         (c.length < p.dims.length → p.minCorner.x = 0)) ∧
        ((p.dims.height ≤ c.height →
            0 ≤ p.minCorner.y ∧ p.minCorner.y ≤ c.height - p.dims.height) ∧
         (c.height < p.dims.height → p.minCorner.y = 0)) ∧
        ((p.dims.width ≤ c.width →
            0 ≤ p.minCorner.z ∧ p.minCorner.z ≤ c.width - p.dims.width) ∧
         (c.width < p.dims.width → p.minCorner.z = 0))) := by
  refine ⟨⟨?_, ?_⟩, ?_, ?_, ?_⟩
  · intro hf i
    rcases hok : okInterpretation c items with _ | j
    · rw [okInterpretation] at hok
      have := List.find?_eq_none.mp hok i (by cases i <;> simp [interpretations])
      simpa using this
    · simp only [resolve, hok] at hf
      simp at hf
  · intro hall
    have hok : okInterpretation c items = none := by
      rw [okInterpretation]
      apply List.find?_eq_none.mpr
      intro i _
      simpa using hall i
    simp [resolve, hok]
  · rcases hok : okInterpretation c items with _ | j <;> simp [resolve, hok]
  · rcases hok : okInterpretation c items with _ | j <;> simp [resolve, hok]
  · intro hf p hp
    have hok : okInterpretation c items = none := by
      rcases hok : okInterpretation c items with _ | j
      · rfl
      · simp only [resolve, hok] at hf
        simp at hf
    simp only [resolve, hok] at hp
    rcases List.mem_map.mp hp with ⟨it, hit, rfl⟩
    refine ⟨⟨it, hit, rfl⟩, ?_, ?_, ?_⟩
    · simpa only [placeClamped] using
        clampAxis_bounds c.length it.dims.orTenth.length it.pos.x
    · simpa only [placeClamped] using
        clampAxis_bounds c.height it.dims.orTenth.height it.pos.y
    · simpa only [placeClamped] using
        clampAxis_bounds c.width it.dims.orTenth.width it.pos.z

theorem resolve_fallback_spec_witness :
    (resolve ⟨1, 1, 1⟩ [⟨⟨5, 5, 5⟩, ⟨1, 1, 1⟩⟩]).usedFallback = true :=
  (resolve_fallback_spec ⟨1, 1, 1⟩ [⟨⟨5, 5, 5⟩, ⟨1, 1, 1⟩⟩] (by simp)).1.mpr
    (fun i => by cases i <;>
      norm_num [overflowCount, itemOverflows, Interp.apply, tol, List.filter])

/-- C9: on inputs where every item has positive dimensions and candidate 1
places every minimum corner exactly within `[0, containerDim - itemDim]`
on each axis (no tolerance slack), the shipped component — an
unconditional per-axis clamp with no interpretation search — produces the
same scene positions as the resolver, which selects candidate 1 and does
not clamp. -/
theorem shipped_refines_resolver (c : Container) (items : List PackedItem)
    (hpos : ∀ it ∈ items,
      0 < it.dims.length ∧ 0 < it.dims.width ∧ 0 < it.dims.height)
    (hfit : ∀ it ∈ items,
      0 ≤ it.pos.x ∧ it.pos.x ≤ c.length - it.dims.length ∧
      0 ≤ it.pos.y ∧ it.pos.y ≤ c.height - it.dims.height ∧
      0 ≤ it.pos.z ∧ it.pos.z ≤ c.width - it.dims.width) :
    okInterpretation c items = some .minCorner ∧
    (resolve c items).usedFallback = false ∧
    shippedScenePositions c items = resolvedScenePositions c items := by
  have htol : (0 : ℚ) < tol := by norm_num [tol]
  have hnof : ∀ it ∈ items, itemOverflows c .minCorner it = false := by
    intro it hit
    obtain ⟨hx0, hxL, hy0, hyH, hz0, hzW⟩ := hfit it hit
    simp only [itemOverflows, Interp.apply, Bool.or_eq_false_iff,
      decide_eq_false_iff_not, not_lt]
    refine ⟨⟨⟨⟨⟨?_, ?_⟩, ?_⟩, ?_⟩, ?_⟩, ?_⟩ <;> linarith
  have hcount : overflowCount c .minCorner items = 0 := by
    rw [overflowCount, List.length_eq_zero, List.filter_eq_nil_iff]
    intro a ha
    simp [hnof a ha]
  have hok : okInterpretation c items = some .minCorner := by
    simp [okInterpretation, interpretations, List.find?, hcount]
  refine ⟨hok, by simp [resolve, hok], ?_⟩
  rw [shippedScenePositions, resolvedScenePositions]
  simp only [resolve, hok]
  rw [List.map_map, List.map_map]
  apply List.map_congr_left
  intro it hit
  obtain ⟨hl, hw, hh⟩ := hpos it hit
  obtain ⟨hx0, hxL, hy0, hyH, hz0, hzW⟩ := hfit it hit
  have hdd : it.dims.orTenth = it.dims := by
    simp [Dims.orTenth, dimOrTenth, ne_of_gt hl, ne_of_gt hw, ne_of_gt hh]
  simp only [Function.comp, shippedMinCorner, placeValidated, Interp.apply, hdd]
  rw [min_eq_left hxL, max_eq_right hx0, min_eq_left hyH, max_eq_right hy0,
    min_eq_left hzW, max_eq_right hz0]

theorem shipped_refines_resolver_witness :
    shippedScenePositions ⟨2, 2, 2⟩ [⟨⟨0, 0, 0⟩, ⟨1, 1, 1⟩⟩] =
      resolvedScenePositions ⟨2, 2, 2⟩ [⟨⟨0, 0, 0⟩, ⟨1, 1, 1⟩⟩] :=
  (shipped_refines_resolver ⟨2, 2, 2⟩ [⟨⟨0, 0, 0⟩, ⟨1, 1, 1⟩⟩]
    (by norm_num) (by norm_num)).2.2

/-- C4: the fallback shelf packer expands each `ItemSpec` into `quantity`
instances in input order and processes them by the row/wrap/stop rules of
the source loop (`padding = 0.01`): wrap resets `cursorX` to 0, advances
`cursorZ` by `layerHeight + padding` and resets `layerHeight`; if
`cursorZ + width` then exceeds the container width the loop stops,
silently dropping all remaining instances; otherwise the instance is
placed at `(cursorX, 0, cursorZ)`, `cursorX` advances by
`length + padding` and `layerHeight` absorbs the width.  Scenario D: a
1x1x1 container with a single 2x1x1 item yields zero placements, and being
a total function the packer raises no exception. -/
theorem fallbackPack_spec :
    padding = 1 / 100 ∧
    (∀ (b : ItemSpec) (bs : List ItemSpec),
      expandInstances (b :: bs) =
        List.replicate b.qty b.instanceDims ++ expandInstances bs) ∧
    (∀ (L W : ℚ) (it : Dims) (rest : List Dims) (cx cz lh : ℚ),
      ¬ (cx + it.length > L) → ¬ (cz + it.width > W) →
      shelfPack L W (it :: rest) cx cz lh =
        (⟨cx, 0, cz⟩, it) ::
          shelfPack L W rest (cx + it.length + padding) cz (max lh it.width)) ∧
    (∀ (L W : ℚ) (it : Dims) (rest : List Dims) (cx cz lh : ℚ),
      cx + it.length > L → ¬ (cz + lh + padding + it.width > W) →
      shelfPack L W (it :: rest) cx cz lh =
        (⟨0, 0, cz + lh + padding⟩, it) ::
          shelfPack L W rest (0 + it.length + padding) (cz + lh + padding)
            (max 0 it.width)) ∧
    (∀ (L W : ℚ) (it : Dims) (rest : List Dims) (cx cz lh : ℚ),
      ¬ (cx + it.length > L) → cz + it.width > W →
      shelfPack L W (it :: rest) cx cz lh = []) ∧
    (∀ (L W : ℚ) (it : Dims) (rest : List Dims) (cx cz lh : ℚ),
      cx + it.length > L → cz + lh + padding + it.width > W →
      shelfPack L W (it :: rest) cx cz lh = []) ∧
    fallbackPack ⟨1, 1, 1⟩ [⟨2, 1, 1, 1, 1, "m", false⟩] = [] := by
  have hd : ItemSpec.instanceDims ⟨2, 1, 1, 1, 1, "m", false⟩ = ⟨2, 1, 1⟩ := by
    simp [ItemSpec.instanceDims, dimOrTenth, convertToMeters]
  have hq : ItemSpec.qty ⟨2, 1, 1, 1, 1, "m", false⟩ = 1 := by
    norm_num [ItemSpec.qty]
  refine ⟨rfl, ?_, ?_, ?_, ?_, ?_, ?_⟩
  · intro b bs
    simp [expandInstances]
  · intro L W it rest cx cz lh h1 h2
    simp [shelfPack, h1, h2]
  · intro L W it rest cx cz lh h1 h2
    simp [shelfPack, h1, h2]
  · intro L W it rest cx cz lh h1 h2
    simp [shelfPack, h1, h2]
  · intro L W it rest cx cz lh h1 h2
    simp [shelfPack, h1, h2]
  · norm_num [fallbackPack, expandInstances, hd, hq, shelfPack, padding]

theorem fallbackPack_spec_witness :
    shelfPack 3 2 [⟨1, 1, 1⟩] 0 0 0 =
      (⟨0, 0, 0⟩, (⟨1, 1, 1⟩ : Dims)) ::
        shelfPack 3 2 [] (0 + 1 + padding) 0 (max 0 1) :=
  fallbackPack_spec.2.2.1 3 2 ⟨1, 1, 1⟩ [] 0 0 0 (by norm_num) (by norm_num)

/-- Width-axis invariant of the shelf-packing loop: starting from
non-negative `cursorZ` and `layerHeight`, every placed instance has
`0 ≤ cursorZ` and `cursorZ + width ≤ containerWidth` at the moment of
placement. -/
theorem shelfPack_z_inv (L W : ℚ) :
    ∀ (instances : List Dims) (cx cz lh : ℚ), 0 ≤ cz → 0 ≤ lh →
      ∀ pd ∈ shelfPack L W instances cx cz lh,
        0 ≤ pd.1.z ∧ pd.1.z + pd.2.width ≤ W := by
  have hp : (0 : ℚ) < padding := by norm_num [padding]
  intro instances
  induction instances with
  | nil =>
    intro cx cz lh _ _ pd hpd
    simp [shelfPack] at hpd
  | cons it rest ih =>
    intro cx cz lh hcz hlh pd hpd
    by_cases hwrap : cx + it.length > L
    · by_cases hstop : cz + lh + padding + it.width > W
      · simp [shelfPack, hwrap, hstop] at hpd
      · simp [shelfPack, hwrap, hstop] at hpd
        rcases hpd with rfl | hpd
        · push_neg at hstop
          refine ⟨?_, ?_⟩ <;> dsimp only <;> linarith
        · exact ih _ _ _ (by linarith) (le_max_left _ _) pd hpd
    · by_cases hstop : cz + it.width > W
      · simp [shelfPack, hwrap, hstop] at hpd
      · simp [shelfPack, hwrap, hstop] at hpd
        rcases hpd with rfl | hpd
        · push_neg at hstop
          refine ⟨?_, ?_⟩ <;> dsimp only <;> linarith
        · exact ih _ _ _ hcz (le_trans hlh (le_max_left _ _)) pd hpd

/-- C10: every instance the shelf packer actually places satisfies
`0 ≤ cursorZ` and `cursorZ + width ≤ containerWidth` at placement, but no
length-axis check is re-done after a wrap: a 1-long, 5-wide container with
a single 2x1x1 item places the instance at `cursorX = 0` even though
`cursorX + length = 2` exceeds the container length 1. -/
theorem shelfPack_width_invariant (L W : ℚ) (instances : List Dims)
    (cx cz lh : ℚ) (hcz : 0 ≤ cz) (hlh : 0 ≤ lh) :
    (∀ pd ∈ shelfPack L W instances cx cz lh,
      0 ≤ pd.1.z ∧ pd.1.z + pd.2.width ≤ W) ∧
    (fallbackPack ⟨1, 5, 1⟩ [⟨2, 1, 1, 1, 1, "m", false⟩] =
      [(⟨0, 0, 1 / 100⟩, ⟨2, 1, 1⟩)] ∧
     ¬ ((0 : ℚ) + 2 ≤ 1)) := by
  have hd : ItemSpec.instanceDims ⟨2, 1, 1, 1, 1, "m", false⟩ = ⟨2, 1, 1⟩ := by
    simp [ItemSpec.instanceDims, dimOrTenth, convertToMeters]
  have hq : ItemSpec.qty ⟨2, 1, 1, 1, 1, "m", false⟩ = 1 := by
    norm_num [ItemSpec.qty]
  refine ⟨shelfPack_z_inv L W instances cx cz lh hcz hlh, ?_, by norm_num⟩
  norm_num [fallbackPack, expandInstances, hd, hq, shelfPack, padding]

theorem shelfPack_width_invariant_witness :
    fallbackPack ⟨1, 5, 1⟩ [⟨2, 1, 1, 1, 1, "m", false⟩] =
      [(⟨0, 0, 1 / 100⟩, ⟨2, 1, 1⟩)] ∧ ¬ ((0 : ℚ) + 2 ≤ 1) :=
  (shelfPack_width_invariant 1 5 [⟨2, 1, 1⟩] 0 0 0 (le_refl 0) (le_refl 0)).2
